import Mathlib

/-!
Shallow embedding of `src/SubjectiveBitBucketDataSource.py`.

The adapter lists a Bitbucket user's repositories page by page over HTTP and
clones each one with an external `git clone` process.  The embedding makes the
external world explicit:

* an HTTP environment `api : Nat → HttpResponse` gives, for each page number,
  the response the listing endpoint would return for that page;
* a filesystem environment `FsEnv` records what kind of object sits at the
  target directory path and whether `os.makedirs` would succeed there;
* a clone environment `cloneEnv : String → String → CloneOutcome` gives the
  outcome of the external `git clone` process for a clone URL and repo name.

Observable behaviour is a trace of events `Ev` (log lines, directory creation,
HTTP page requests, clone-process invocations) together with a result that is
either a value or one of the Python exceptions the source can raise.  The
`while True` pagination loop of `get_repos` is embedded with explicit fuel:
a result of `none` means the loop did not finish within the given fuel bound,
and divergence is expressed as `none` for every fuel.
-/

namespace SubjectiveBitBucket

/-- One entry of `links.clone` in a repository record: a JSON object whose
`href` key may be absent. -/
structure CloneLink where
  href : Option String
deriving Repr, DecidableEq

/-- The `links` object of a repository record: its `clone` key (a list of
clone links) may be absent. -/
structure RepoLinks where
  clone : Option (List CloneLink)
deriving Repr, DecidableEq

/-- A repository record as returned by the listing API.  Both keys used by the
source (`name` and `links`) may be absent, mirroring Python `dict.get`. -/
structure Repo where
  name : Option String := none
  links : Option RepoLinks := none
deriving Repr, DecidableEq

/-- The Python exceptions the adapter can raise. -/
inductive PyError where
  /-- `OSError` re-raised when `os.makedirs` fails (line 30). -/
  | osError
  /-- `NotADirectoryError` (line 35). -/
  | notADirectoryError
  /-- `ValueError` raised on a 404 listing response (line 78). -/
  | valueError
  /-- `PermissionError` raised on a 403 listing response (line 82). -/
  | permissionError
  /-- `ConnectionError` raised on any other non-200 listing status (line 86);
  the message carries the status code. -/
  | connectionError (status : Nat)
  /-- `IndexError` from `[0]` on an empty clone-link list (line 46). -/
  | indexError
deriving Repr, DecidableEq

/-- Observable events emitted while the adapter runs. -/
inductive Ev where
  /-- A `BBLogger.log` call. -/
  | log (msg : String)
  /-- A successful `os.makedirs(target_directory)` call. -/
  | mkdir (path : String)
  /-- One `requests.get` listing call with its `pagelen` and `page` params. -/
  | request (pagelen page : Nat)
  /-- One `subprocess.run` invocation of `git clone` (a clone attempt). -/
  | cloneCall (url name : String)
deriving Repr, DecidableEq

/-- One HTTP response of the listing endpoint: its status code and the
`values` array of its JSON body (`none` when the body has no `values` key;
`response.json().get('values', [])` turns that into `[]`). -/
structure HttpResponse where
  status : Nat
  values : Option (List Repo)
deriving Repr, DecidableEq

/-- What sits on disk at the target-directory path. -/
inductive PathKind where
  /-- `os.path.exists` is false. -/
  | absent
  /-- the path exists and `os.path.isdir` is true. -/
  | directory
  /-- the path exists but `os.path.isdir` is false (e.g. a regular file). -/
  | file
deriving Repr, DecidableEq

/-- Filesystem environment for one `fetch` run. -/
structure FsEnv where
  target_kind : PathKind
  /-- Whether `os.makedirs(target_directory)` succeeds if invoked. -/
  mkdirOk : Bool
deriving Repr, DecidableEq

/-- Outcome of the external `git clone` process for one repository. -/
inductive CloneOutcome where
  /-- the process exits 0. -/
  | success
  /-- `subprocess.CalledProcessError`: non-zero exit, with captured stderr. -/
  | processFailure (stderr : String)
  /-- any other exception (e.g. the executable is missing). -/
  | unexpectedFailure (msg : String)
deriving Repr, DecidableEq

/-- The `params` mapping supplied at construction (`self.params`). -/
structure SyncParams where
  username : String
  token : String
  target_directory : String
deriving Repr, DecidableEq

/-- The adapter object; the only field the embedded operations touch is
`params` (set once in `__init__`, line 15, and never written again). -/
structure Adapter where
  params : SyncParams
deriving Repr, DecidableEq

/-- Line 46: `repo.get('links', {}).get('clone', [{}])[0].get('href')`.
A missing `links` or `clone` key defaults to the singleton `[{}]`, whose
first element has no `href`; but an explicitly empty clone list makes the
`[0]` subscript raise `IndexError`. -/
def getCloneUrl (r : Repo) : Except PyError (Option String) :=
  let cloneList : List CloneLink :=
    match r.links with
    | none => [⟨none⟩]
    | some ls =>
      match ls.clone with
      | none => [⟨none⟩]
      | some cs => cs
  match cloneList with
  | [] => Except.error PyError.indexError
  | c :: _ => Except.ok c.href

/-- Line 47: `repo.get('name', 'Unnamed Repository')`. -/
def displayName (r : Repo) : String :=
  r.name.getD ("Unnamed Repository")

/-- Lines 90-98, `clone_repo`: log, run `git clone`, and log the outcome.
Every failure of the external process is caught and logged (lines 95-98), so
the function only ever produces events, never an error. -/
def clone_repo (cloneEnv : String → String → CloneOutcome)
    (repo_clone_url _target_directory repo_name : String) : List Ev :=
  let attempt : List Ev :=
    [Ev.log ("Cloning repository " ++ repo_name ++ " from " ++ repo_clone_url ++ "..."),
     Ev.cloneCall repo_clone_url repo_name]
  match cloneEnv repo_clone_url repo_name with
  | CloneOutcome.success =>
      attempt ++ [Ev.log ("Successfully cloned " ++ repo_name ++ ".")]
  | CloneOutcome.processFailure stderr =>
      attempt ++ [Ev.log ("Error cloning " ++ repo_name ++ ": " ++ stderr)]
  | CloneOutcome.unexpectedFailure msg =>
      attempt ++ [Ev.log ("Unexpected error cloning " ++ repo_name ++ ": " ++ msg)]

/-- The warning logged when a repository has no clone URL (line 51). -/
def skipLogEv (repo_name : String) : Ev :=
  Ev.log ("No clone URL found for repository " ++ repo_name ++ ". Skipping.")

/-- Lines 44-51, one iteration of the cloning loop: extract the clone URL
(which may raise `IndexError`), then clone if it is truthy (a non-`None`,
non-empty string), else log the skip warning. -/
def processRepo (cloneEnv : String → String → CloneOutcome)
    (target_directory : String) (r : Repo) : List Ev × Option PyError :=
  match getCloneUrl r with
  | Except.error e => ([], some e)
  | Except.ok clone_url =>
    match clone_url with
    | some s =>
      if s.isEmpty then
        ([skipLogEv (displayName r)], none)
      else
        (clone_repo cloneEnv s target_directory (displayName r), none)
    | none =>
      ([skipLogEv (displayName r)], none)

/-- The `for repo in repos` loop of `fetch` (lines 44-51): iterate in API
order, accumulating events; an uncaught exception in an iteration stops the
loop and propagates, keeping the events already emitted. -/
def processRepos (cloneEnv : String → String → CloneOutcome)
    (target_directory : String) : List Repo → List Ev × Option PyError
  | [] => ([], none)
  | r :: rs =>
    match processRepo cloneEnv target_directory r with
    | (evs, some e) => (evs, some e)
    | (evs, none) =>
      let rest := processRepos cloneEnv target_directory rs
      (evs ++ rest.1, rest.2)

/-- The log line emitted before each listing request (line 65). -/
def pageLogEv (username : String) (page : Nat) : Ev :=
  Ev.log ("Fetching page " ++ toString page ++ " of repositories for Bitbucket user " ++ username ++ ".")

/-- The two events of one listing request (lines 65-66): the page log and the
`requests.get` call with `pagelen = 100` and the current page number. -/
def pageEvs (username : String) (page : Nat) : List Ev :=
  [pageLogEv username page, Ev.request 100 page]

/-- The log line emitted when a page comes back empty (line 71). -/
def noMoreLogEv : Ev :=
  Ev.log ("No more repositories found.")

/-- Lines 55-88, `get_repos`: the `while True` pagination loop, with explicit
fuel.  Starting from `page` with accumulator `repos`, issue the request for
`page`; on a 200 response append the `values` array (empty or missing array
ends the loop, returning the accumulator); on 404 / 403 / anything else raise
`ValueError` / `PermissionError` / `ConnectionError`.  `none` means the loop
did not finish within `fuel` iterations. -/
def get_reposF (api : Nat → HttpResponse) (username : String) :
    Nat → Nat → List Repo → Option (List Ev × Except PyError (List Repo))
  | 0, _, _ => none
  | fuel + 1, page, repos =>
    let ev := pageEvs username page
    let response := api page
    if response.status = 200 then
      let page_repos := response.values.getD []
      if page_repos.isEmpty then
        some (ev ++ [noMoreLogEv], Except.ok repos)
      else
        match get_reposF api username fuel (page + 1) (repos ++ page_repos) with
        | none => none
        | some (tr, res) => some (ev ++ tr, res)
    else if response.status = 404 then
      some (ev ++ [Ev.log ("User " ++ username ++ " not found on Bitbucket.")],
        Except.error PyError.valueError)
    else if response.status = 403 then
      some (ev ++ [Ev.log ("Access forbidden. Check your token or permissions.")],
        Except.error PyError.permissionError)
    else
      some (ev ++ [Ev.log ("Failed to fetch repositories: HTTP " ++ toString response.status)],
        Except.error (PyError.connectionError response.status))

/-- `get_repos` as called from `fetch`: the loop starts at page 1 with an
empty accumulator (lines 56-57). -/
def get_repos (api : Nat → HttpResponse) (username : String) (fuel : Nat) :
    Option (List Ev × Except PyError (List Repo)) :=
  get_reposF api username fuel 1 []

/-- The log line opening every `fetch` run (line 22). -/
def startLogEv (p : SyncParams) : Ev :=
  Ev.log ("Starting fetch process for Bitbucket user " ++ p.username ++ " into directory " ++ p.target_directory ++ ".")

/-- Lines 24-35: bootstrap the target directory.  If the path is absent,
`os.makedirs` it (re-raising its `OSError` on failure); if it exists but is
not a directory, raise `NotADirectoryError`; otherwise do nothing. -/
def ensureDir (fs : FsEnv) (target_directory : String) : List Ev × Option PyError :=
  match fs.target_kind with
  | PathKind.absent =>
    if fs.mkdirOk then
      ([Ev.mkdir target_directory, Ev.log ("Created directory: " ++ target_directory)], none)
    else
      ([Ev.log ("Failed to create directory " ++ target_directory ++ ".")], some PyError.osError)
  | PathKind.file =>
    ([Ev.log ("Path " ++ target_directory ++ " is not a directory.")],
     some PyError.notADirectoryError)
  | PathKind.directory => ([], none)

/-- The log line of line 42, parameterised by `len(repos)`. -/
def foundLogEv (n : Nat) : Ev :=
  Ev.log ("Found " ++ toString n ++ " repositories. Starting cloning process.")

/-- The closing log line of a completed run (line 53). -/
def doneLogEv : Ev :=
  Ev.log ("All repositories have been processed.")

/-- Lines 17-53, `fetch`: read the params, bootstrap the target directory,
retrieve the full repository list, then clone each repository in API order.
Directory and listing failures propagate; per-repository clone failures are
absorbed inside `clone_repo`.  `none` means the pagination loop did not
finish within `fuel` iterations. -/
def fetch (p : SyncParams) (fs : FsEnv) (api : Nat → HttpResponse)
    (cloneEnv : String → String → CloneOutcome) (fuel : Nat) :
    Option (List Ev × Except PyError Unit) :=
  let ev0 := startLogEv p
  let dir := ensureDir fs p.target_directory
  match dir.2 with
  | some e => some (ev0 :: dir.1, Except.error e)
  | none =>
    match get_repos api p.username fuel with
    | none => none
    | some (lsEvs, Except.error e) => some (ev0 :: dir.1 ++ lsEvs, Except.error e)
    | some (lsEvs, Except.ok repos) =>
      if repos.isEmpty then
        some (ev0 :: dir.1 ++ lsEvs ++ [Ev.log ("No repositories found for user " ++ p.username ++ ".")],
          Except.ok ())
      else
        let pr := processRepos cloneEnv p.target_directory repos
        match pr.2 with
        | some e =>
          some (ev0 :: dir.1 ++ lsEvs ++ foundLogEv repos.length :: pr.1, Except.error e)
        | none =>
          some (ev0 :: dir.1 ++ lsEvs ++ foundLogEv repos.length :: pr.1 ++ [doneLogEv],
            Except.ok ())

/-- `fetch` as a method of the adapter object: Python methods thread `self`;
the source never assigns to `self.params` outside `__init__`, so the adapter
state coming out is the state going in. -/
def Adapter.fetchRun (a : Adapter) (fs : FsEnv) (api : Nat → HttpResponse)
    (cloneEnv : String → String → CloneOutcome) (fuel : Nat) :
    Adapter × Option (List Ev × Except PyError Unit) :=
  (a, fetch a.params fs api cloneEnv fuel)

/-- The SVG string embedded in `get_icon` (lines 103-118). -/
def bitbucketIconSvg : String := "
<svg viewBox=\"0 0 32 32\" fill=\"none\" xmlns=\"http://www.w3.org/2000/svg\">
  <g id=\"SVGRepo_bgCarrier\" stroke-width=\"0\"></g>
  <g id=\"SVGRepo_tracerCarrier\" stroke-linecap=\"round\" stroke-linejoin=\"round\"></g>
  <g id=\"SVGRepo_iconCarrier\">
    <path d=\"M2.9087 3.00008C2.64368 2.99655 2.3907 3.11422 2.21764 3.32152C2.04458 3.52883 1.96915 3.80455 2.01158 4.07472L5.81987 27.9484C5.91782 28.5515 6.42093 28.9949 7.01305 28.9999H25.283C25.7274 29.0058 26.109 28.6748 26.1801 28.2217L29.9884 4.07935C30.0309 3.80918 29.9554 3.53346 29.7824 3.32615C29.6093 3.11885 29.3563 3.00118 29.0913 3.00471L2.9087 3.00008ZM18.9448 20.2546H13.1135L11.5346 11.7362H20.3578L18.9448 20.2546Z\" fill=\"#2684FF\" data-darkreader-inline-fill=\"\" style=\"--darkreader-inline-fill: #004eb5;\"></path>
    <path fill-rule=\"evenodd\" clip-rule=\"evenodd\" d=\"M28.7778 11.7363H20.3582L18.9453 20.2547H13.114L6.22852 28.6944C6.44675 28.8892 6.725 28.9976 7.0135 29.0001H25.2879C25.7324 29.006 26.114 28.675 26.1851 28.2219L28.7778 11.7363Z\" fill=\"url(#paint0_linear_87_7932)\"></path>
    <defs>
      <linearGradient id=\"paint0_linear_87_7932\" x1=\"30.7245\" y1=\"14.1218\" x2=\"20.5764\" y2=\"28.0753\" gradientUnits=\"userSpaceOnUse\">
        <stop offset=\"0.18\" stop-color=\"#0052CC\" data-darkreader-inline-stopcolor=\"\" style=\"--darkreader-inline-stopcolor: #0042a3;\"></stop>
        <stop offset=\"1\" stop-color=\"#2684FF\" data-darkreader-inline-stopcolor=\"\" style=\"--darkreader-inline-stopcolor: #004eb5;\"></stop>
      </linearGradient>
    </defs>
  </g>
</svg>
        "

/-- Lines 101-118, `get_icon`: the body is a single `return` of the embedded
SVG literal.  `iconFile` models the contents of a colocated, readable
`icon.svg` (`none` when absent or unreadable); the source never consults it. -/
def get_icon (_iconFile : Option String) : String :=
  bitbucketIconSvg

/-- Lines 120-127, `get_connection_data`: a constant record. -/
structure ConnectionData where
  connection_type : String
  fields : List String
deriving Repr, DecidableEq

/-- The constant returned by `get_connection_data`. -/
def get_connection_data : ConnectionData :=
  { connection_type := "BitBucket",
    fields := ["username", "token", "target_directory"] }

/-- The clone attempts recorded in a trace, as (url, repo name) pairs in
order. -/
def cloneEvents (tr : List Ev) : List (String × String) :=
  tr.filterMap fun e =>
    match e with
    | Ev.cloneCall u n => some (u, n)
    | _ => none

/-- Number of clone attempts in a trace. -/
def countClones (tr : List Ev) : Nat :=
  (cloneEvents tr).length

/-- The listing requests recorded in a trace, as (pagelen, page) pairs in
order. -/
def requestPages (tr : List Ev) : List (Nat × Nat) :=
  tr.filterMap fun e =>
    match e with
    | Ev.request pl pg => some (pl, pg)
    | _ => none

/-- The URL `fetch` would actually clone for a record, if any: the extracted
first `href` when it is a non-empty string (the truthiness test of line 48),
and `none` when the record is skipped or extraction raises. -/
def repoUrl (r : Repo) : Option String :=
  match getCloneUrl r with
  | Except.ok (some u) => if u.isEmpty then none else some u
  | _ => none

/-- The (url, name) pair of the clone attempt a record gives rise to, if
any. -/
def repoCloneSig (r : Repo) : Option (String × String) :=
  (repoUrl r).map fun u => (u, displayName r)

/-- Whether clone-URL extraction succeeds (no `IndexError`) on a record. -/
def extractOk (r : Repo) : Bool :=
  match getCloneUrl r with
  | Except.ok _ => true
  | Except.error _ => false

/-- The exception `get_repos` raises for a non-200 status (lines 75-86). -/
def statusError (status : Nat) : PyError :=
  if status = 404 then PyError.valueError
  else if status = 403 then PyError.permissionError
  else PyError.connectionError status

/-- A record with a name and one clone link (the common API shape). -/
def mkRepo (nm u : String) : Repo :=
  { name := some nm, links := some { clone := some [{ href := some u }] } }

/-- A record with a name and no `links` key at all. -/
def mkRepoNoLinks (nm : String) : Repo :=
  { name := some nm, links := none }

/-- A record whose `links.clone` is present but an empty list. -/
def mkRepoEmptyClone (nm : String) : Repo :=
  { name := some nm, links := some { clone := some [] } }

/-- Concrete params used to instantiate the theorems. -/
def pW : SyncParams :=
  { username := "alice", token := "tok", target_directory := "/data/repos" }

/-- A filesystem where the target path is an existing directory. -/
def fsDir : FsEnv := { target_kind := PathKind.directory, mkdirOk := true }

/-- A filesystem where the target path exists but is a regular file. -/
def fsFile : FsEnv := { target_kind := PathKind.file, mkdirOk := true }

/-- A filesystem where the target path is absent and `os.makedirs` works. -/
def fsAbsent : FsEnv := { target_kind := PathKind.absent, mkdirOk := true }

/-- A filesystem where the target path is absent and `os.makedirs` fails. -/
def fsAbsentBad : FsEnv := { target_kind := PathKind.absent, mkdirOk := false }

/-- A clone environment where every `git clone` succeeds. -/
def cloneAllOk : String → String → CloneOutcome :=
  fun _ _ => CloneOutcome.success

/-- API: page 1 holds three records, the middle one without a clone URL;
page 2 is empty. -/
def apiC2 : Nat → HttpResponse := fun pg =>
  if pg = 1 then
    { status := 200, values := some [mkRepo "a" "urlA", mkRepoNoLinks "b", mkRepo "c" "urlC"] }
  else
    { status := 200, values := some [] }

/-- API: pages 1 and 2 hold 100 records each, page 3 is empty. -/
def apiC3 : Nat → HttpResponse := fun pg =>
  if pg ≤ 2 then
    { status := 200, values := some (List.replicate 100 (mkRepo "r" "urlR")) }
  else
    { status := 200, values := some [] }

/-- API: every page answers HTTP 500. -/
def apiC4 : Nat → HttpResponse := fun _ =>
  { status := 500, values := none }

/-- API: page 1 holds three records with clone URLs, page 2 is empty. -/
def apiC5 : Nat → HttpResponse := fun pg =>
  if pg = 1 then
    { status := 200, values := some [mkRepo "a" "uA", mkRepo "b" "uB", mkRepo "c" "uC"] }
  else
    { status := 200, values := some [] }

/-- A clone environment where exactly the clone of `uB` fails (non-zero
exit). -/
def cloneFailB : String → String → CloneOutcome := fun u _ =>
  if u = "uB" then CloneOutcome.processFailure "fatal: repository not found"
  else CloneOutcome.success

/-- API: every page answers 404 with a nonempty `values` array, so no page
ever returns an empty result set. -/
def apiC8 : Nat → HttpResponse := fun _ =>
  { status := 404, values := some [mkRepo "r" "urlR"] }

/-- API: all pages 200; page 1 already empty. -/
def apiC8W : Nat → HttpResponse := fun pg =>
  { status := 200, values := if pg = 1 then some [] else some [mkRepo "r" "urlR"] }

/-- API: page 1 holds a good record followed by one whose clone list is
empty; page 2 is empty. -/
def apiC10 : Nat → HttpResponse := fun pg =>
  if pg = 1 then
    { status := 200, values := some [mkRepo "a" "urlA", mkRepoEmptyClone "bad"] }
  else
    { status := 200, values := some [] }

/-! ## Trace and loop lemmas -/

theorem cloneEvents_append (a b : List Ev) :
    cloneEvents (a ++ b) = cloneEvents a ++ cloneEvents b := by
  simp [cloneEvents, List.filterMap_append]

theorem requestPages_append (a b : List Ev) :
    requestPages (a ++ b) = requestPages a ++ requestPages b := by
  simp [requestPages, List.filterMap_append]

theorem cloneEvents_clone_repo (cloneEnv : String → String → CloneOutcome)
    (u t n : String) : cloneEvents (clone_repo cloneEnv u t n) = [(u, n)] := by
  unfold clone_repo
  cases cloneEnv u n <;> simp [cloneEvents]

/-- A successfully extracting record produces no error and exactly the clone
attempts `repoCloneSig` predicts. -/
theorem processRepo_ok (cloneEnv : String → String → CloneOutcome) (t : String)
    (r : Repo) (h : extractOk r = true) :
    (processRepo cloneEnv t r).2 = none ∧
      cloneEvents (processRepo cloneEnv t r).1 = (repoCloneSig r).toList := by
  unfold extractOk at h
  cases hg : getCloneUrl r with
  | error e => rw [hg] at h; simp at h
  | ok u =>
    cases u with
    | none => simp [processRepo, hg, repoCloneSig, repoUrl, cloneEvents, skipLogEv]
    | some s =>
      by_cases hs : s.isEmpty
      · simp [processRepo, hg, hs, repoCloneSig, repoUrl, cloneEvents, skipLogEv]
      · simp [processRepo, hg, hs, repoCloneSig, repoUrl, cloneEvents_clone_repo]

/-- The per-record error component does not depend on the clone
environment. -/
theorem processRepo_snd_indep (c₁ c₂ : String → String → CloneOutcome)
    (t : String) (r : Repo) :
    (processRepo c₁ t r).2 = (processRepo c₂ t r).2 := by
  unfold processRepo
  cases getCloneUrl r with
  | error e => rfl
  | ok u =>
    cases u with
    | none => rfl
    | some s => by_cases hs : s.isEmpty <;> simp [hs]

/-- The loop's error component does not depend on the clone environment:
per-repository clone failures never become loop errors. -/
theorem processRepos_snd_indep (c₁ c₂ : String → String → CloneOutcome)
    (t : String) (rs : List Repo) :
    (processRepos c₁ t rs).2 = (processRepos c₂ t rs).2 := by
  induction rs with
  | nil => rfl
  | cons r rs ih =>
    have hr := processRepo_snd_indep c₁ c₂ t r
    rcases h₁ : processRepo c₁ t r with ⟨evs₁, err₁⟩
    rcases h₂ : processRepo c₂ t r with ⟨evs₂, err₂⟩
    rw [h₁, h₂] at hr
    simp at hr
    cases err₁ with
    | some e => simp [processRepos, h₁, h₂, ← hr]
    | none => simp [processRepos, h₁, h₂, ← hr, ih]

/-- If every record extracts, the loop finishes without error and its clone
attempts are exactly those `repoCloneSig` predicts, in list order. -/
theorem processRepos_ok (cloneEnv : String → String → CloneOutcome) (t : String)
    (rs : List Repo) (h : ∀ r ∈ rs, extractOk r = true) :
    (processRepos cloneEnv t rs).2 = none ∧
      cloneEvents (processRepos cloneEnv t rs).1 = rs.filterMap repoCloneSig := by
  induction rs with
  | nil => simp [processRepos, cloneEvents]
  | cons r rs ih =>
    have hr := processRepo_ok cloneEnv t r (h r (by simp))
    have hrs := ih (fun x hx => h x (by simp [hx]))
    rcases hpr : processRepo cloneEnv t r with ⟨evs, err⟩
    rw [hpr] at hr
    simp at hr
    obtain ⟨herr, hevs⟩ := hr
    subst herr
    simp only [processRepos, hpr]
    refine ⟨hrs.1, ?_⟩
    rw [cloneEvents_append, hevs, hrs.2, List.filterMap_cons]
    cases hsig : repoCloneSig r <;> simp [hsig]

/-- Splitting the loop at an error-free head segment. -/
theorem processRepos_append (cloneEnv : String → String → CloneOutcome)
    (t : String) (xs ys : List Repo) (hx : (processRepos cloneEnv t xs).2 = none) :
    processRepos cloneEnv t (xs ++ ys) =
      ((processRepos cloneEnv t xs).1 ++ (processRepos cloneEnv t ys).1,
        (processRepos cloneEnv t ys).2) := by
  induction xs with
  | nil => simp [processRepos]
  | cons x xs ih =>
    rcases hpx : processRepo cloneEnv t x with ⟨evs, err⟩
    cases err with
    | some e => simp [processRepos, hpx] at hx
    | none =>
      simp only [processRepos, hpx] at hx ⊢
      simp [List.cons_append, processRepos, hpx, ih hx]

/-- One pagination step on a 200 response with a nonempty page: recurse on
the next page with the page appended to the accumulator. -/
theorem get_reposF_step_cons (api : Nat → HttpResponse) (u : String)
    (fuel page : Nat) (acc vs : List Repo)
    (hs : (api page).status = 200) (hv : (api page).values = some vs)
    (hne : vs ≠ []) :
    get_reposF api u (fuel + 1) page acc =
      match get_reposF api u fuel (page + 1) (acc ++ vs) with
      | none => none
      | some (tr, res) => some (pageEvs u page ++ tr, res) := by
  cases vs with
  | nil => exact absurd rfl hne
  | cons v vs' => simp [get_reposF, hs, hv]

/-- One pagination step on a 200 response with an empty page: the loop ends,
returning the accumulator. -/
theorem get_reposF_step_empty (api : Nat → HttpResponse) (u : String)
    (fuel page : Nat) (acc : List Repo)
    (hs : (api page).status = 200) (hv : (api page).values = some []) :
    get_reposF api u (fuel + 1) page acc =
      some (pageEvs u page ++ [noMoreLogEv], Except.ok acc) := by
  simp [get_reposF, hs, hv]

/-- One pagination step on a non-200 response: the loop raises the exception
`statusError` assigns to the status. -/
theorem get_reposF_step_err (api : Nat → HttpResponse) (u : String)
    (fuel page : Nat) (acc : List Repo) (hs : (api page).status ≠ 200) :
    ∃ msg, get_reposF api u (fuel + 1) page acc =
      some (pageEvs u page ++ [Ev.log msg],
        Except.error (statusError (api page).status)) := by
  by_cases h4 : (api page).status = 404
  · exact ⟨"User " ++ u ++ " not found on Bitbucket.", by
      simp [get_reposF, hs, h4, statusError]⟩
  · by_cases h3 : (api page).status = 403
    · exact ⟨"Access forbidden. Check your token or permissions.", by
        simp [get_reposF, hs, h4, h3, statusError]⟩
    · exact ⟨"Failed to fetch repositories: HTTP " ++ toString (api page).status, by
        simp [get_reposF, hs, h4, h3, statusError]⟩

/-- The pagination loop performs no clone attempts. -/
theorem get_reposF_no_clones (api : Nat → HttpResponse) (u : String) :
    ∀ fuel page acc tr res, get_reposF api u fuel page acc = some (tr, res) →
      cloneEvents tr = [] := by
  intro fuel
  induction fuel with
  | zero => intro page acc tr res h; simp [get_reposF] at h
  | succ n ih =>
    intro page acc tr res h
    simp only [get_reposF] at h
    by_cases hs : (api page).status = 200
    · simp only [hs, if_pos rfl] at h
      by_cases he : ((api page).values.getD []).isEmpty
      · rw [if_pos he] at h
        obtain ⟨htr, -⟩ := Prod.mk.inj (Option.some.inj h)
        subst htr
        simp [cloneEvents, pageEvs, pageLogEv, noMoreLogEv]
      · rw [if_neg he] at h
        rcases hrec : get_reposF api u n (page + 1) (acc ++ (api page).values.getD []) with
          _ | ⟨tr', res'⟩
        · rw [hrec] at h; exact absurd h (by simp)
        · rw [hrec] at h
          obtain ⟨h1, h2⟩ := Prod.mk.inj (Option.some.inj h)
          subst h1
          rw [cloneEvents_append, ih (page + 1) _ tr' res' hrec]
          simp [cloneEvents, pageEvs, pageLogEv]
    · rw [if_neg hs] at h
      by_cases h4 : (api page).status = 404
      · rw [if_pos h4] at h
        obtain ⟨h1, -⟩ := Prod.mk.inj (Option.some.inj h)
        subst h1
        simp [cloneEvents, pageEvs, pageLogEv]
      · rw [if_neg h4] at h
        by_cases h3 : (api page).status = 403
        · rw [if_pos h3] at h
          obtain ⟨h1, -⟩ := Prod.mk.inj (Option.some.inj h)
          subst h1
          simp [cloneEvents, pageEvs, pageLogEv]
        · rw [if_neg h3] at h
          obtain ⟨h1, -⟩ := Prod.mk.inj (Option.some.inj h)
          subst h1
          simp [cloneEvents, pageEvs, pageLogEv]

/-- A run whose page 1 is a nonempty 200 page and page 2 is empty: two
requests, and the accumulated list is exactly page 1. -/
theorem get_repos_two_pages (api : Nat → HttpResponse) (u : String)
    (k : Nat) (repos : List Repo)
    (h1s : (api 1).status = 200) (h1v : (api 1).values = some repos)
    (hne : repos ≠ [])
    (h2s : (api 2).status = 200) (h2v : (api 2).values = some []) :
    get_repos api u (k + 2) =
      some (pageEvs u 1 ++ (pageEvs u 2 ++ [noMoreLogEv]), Except.ok repos) := by
  unfold get_repos
  rw [show k + 2 = (k + 1) + 1 from rfl,
    get_reposF_step_cons api u (k + 1) 1 [] repos h1s h1v hne,
    get_reposF_step_empty api u k 2 ([] ++ repos) h2s h2v]
  simp

/-- `fetch` on an existing directory with a one-page listing: the result is
determined by the repo loop, and the trace embeds the loop's trace. -/
theorem fetch_one_page (p : SyncParams) (fs : FsEnv) (api : Nat → HttpResponse)
    (cloneEnv : String → String → CloneOutcome) (k : Nat) (repos : List Repo)
    (hfs : fs.target_kind = PathKind.directory)
    (h1s : (api 1).status = 200) (h1v : (api 1).values = some repos)
    (hne : repos ≠ [])
    (h2s : (api 2).status = 200) (h2v : (api 2).values = some []) :
    fetch p fs api cloneEnv (k + 2) =
      (match (processRepos cloneEnv p.target_directory repos).2 with
      | some e =>
        some (startLogEv p :: (pageEvs p.username 1 ++ (pageEvs p.username 2 ++ [noMoreLogEv])) ++
          foundLogEv repos.length :: (processRepos cloneEnv p.target_directory repos).1,
          Except.error e)
      | none =>
        some (startLogEv p :: (pageEvs p.username 1 ++ (pageEvs p.username 2 ++ [noMoreLogEv])) ++
          foundLogEv repos.length :: (processRepos cloneEnv p.target_directory repos).1 ++ [doneLogEv],
          Except.ok ())) := by
  have hdir : ensureDir fs p.target_directory = ([], none) := by
    unfold ensureDir; rw [hfs]
  have hls := get_repos_two_pages api p.username k repos h1s h1v hne h2s h2v
  have hempty : repos.isEmpty = false := by
    cases repos with
    | nil => exact absurd rfl hne
    | cons r rs => rfl
  simp only [fetch, hdir, hls, hempty]
  rcases hpr : (processRepos cloneEnv p.target_directory repos).2 with _ | e <;> simp [hpr]

/-- If every page of an all-200 API is nonempty, the pagination loop
exhausts any fuel: it runs forever. -/
theorem get_reposF_none_of_never_empty (api : Nat → HttpResponse) (u : String)
    (hall : ∀ pg, (api pg).status = 200)
    (hne : ∀ pg, 1 ≤ pg → ((api pg).values.getD []) ≠ []) :
    ∀ fuel page acc, 1 ≤ page → get_reposF api u fuel page acc = none := by
  intro fuel
  induction fuel with
  | zero => intro page acc _; rfl
  | succ n ih =>
    intro page acc hp
    have h200 := hall page
    have hemp : ((api page).values.getD []).isEmpty = false := by
      cases hvv : (api page).values.getD [] with
      | nil => exact absurd hvv (hne page hp)
      | cons a l => rfl
    simp only [get_reposF]
    rw [if_pos h200, if_neg (by rw [hemp]; exact Bool.false_ne_true),
      ih (page + 1) (acc ++ (api page).values.getD []) (by omega)]

/-- If some page at offset `N` of an all-200 API is empty, fuel `N + 1`
suffices for the loop to return the accumulated list. -/
theorem get_reposF_terminates_of_empty (api : Nat → HttpResponse) (u : String)
    (hall : ∀ pg, (api pg).status = 200) :
    ∀ N page acc, ((api (page + N)).values.getD []) = [] →
      ∃ tr res, get_reposF api u (N + 1) page acc = some (tr, Except.ok res) := by
  intro N
  induction N with
  | zero =>
    intro page acc hvp
    have h200 := hall page
    have hemp : ((api page).values.getD []).isEmpty = true := by
      rw [show page + 0 = page from rfl] at hvp
      rw [hvp]; rfl
    exact ⟨pageEvs u page ++ [noMoreLogEv], acc, by
      simp only [get_reposF]; rw [if_pos h200, if_pos hemp]⟩
  | succ n ih =>
    intro page acc hvp
    have h200 := hall page
    by_cases hemp : ((api page).values.getD []).isEmpty = true
    · refine ⟨pageEvs u page ++ [noMoreLogEv], acc, ?_⟩
      have : get_reposF api u (n + 1 + 1) page acc =
          get_reposF api u (n + 1) page acc := by
        simp only [get_reposF]
        rw [if_pos h200, if_pos hemp, if_pos h200, if_pos hemp]
      rw [this]
      simp only [get_reposF]
      rw [if_pos h200, if_pos hemp]
    · have hvs : ∃ vs, (api page).values = some vs ∧ vs ≠ [] := by
        cases hv : (api page).values with
        | none => rw [hv] at hemp; simp at hemp
        | some vs =>
          refine ⟨vs, rfl, ?_⟩
          intro hnil
          rw [hv, hnil] at hemp
          simp at hemp
      obtain ⟨vs, hv, hvne⟩ := hvs
      obtain ⟨tr, res, hrec⟩ := ih (page + 1) (acc ++ vs) (by
        rw [show page + 1 + n = page + (n + 1) from by omega]; exact hvp)
      refine ⟨pageEvs u page ++ tr, res, ?_⟩
      rw [get_reposF_step_cons api u (n + 1) page acc vs h200 hv hvne, hrec]

/-- A record with a clone URL also extracts without error. -/
theorem extractOk_of_repoUrl (r : Repo) (h : (repoUrl r).isSome) :
    extractOk r = true := by
  unfold repoUrl at h
  unfold extractOk
  cases hg : getCloneUrl r with
  | ok u => rfl
  | error e => rw [hg] at h; simp at h

/-- Over records that all have clone URLs, `repoCloneSig` drops nothing. -/
theorem length_filterMap_repoCloneSig (rs : List Repo)
    (h : ∀ r ∈ rs, (repoUrl r).isSome) :
    (rs.filterMap repoCloneSig).length = rs.length := by
  induction rs with
  | nil => rfl
  | cons r rs ih =>
    have hr := h r (by simp)
    cases hu : repoUrl r with
    | none => rw [hu] at hr; simp at hr
    | some u =>
      rw [List.filterMap_cons, show repoCloneSig r = some (u, displayName r) from by
        simp [repoCloneSig, hu]]
      simp [ih (fun x hx => h x (by simp [hx]))]

/-- A record that extracts to no (truthy) clone URL is skipped with exactly
the warning log. -/
theorem processRepo_skip (cloneEnv : String → String → CloneOutcome) (t : String)
    (rk : Repo) (hk : repoUrl rk = none) (hkok : extractOk rk = true) :
    processRepo cloneEnv t rk = ([skipLogEv (displayName rk)], none) := by
  unfold extractOk at hkok
  unfold repoUrl at hk
  cases hg : getCloneUrl rk with
  | error e => rw [hg] at hkok; simp at hkok
  | ok u =>
    rw [hg] at hk
    cases u with
    | none => simp [processRepo, hg]
    | some s =>
      have hs : s.isEmpty = true := by
        by_contra hns
        simp [hns] at hk
      simp [processRepo, hg, hs]

/-- Directory bootstrap performs no clone attempts. -/
theorem ensureDir_no_clones (fs : FsEnv) (t : String) :
    cloneEvents (ensureDir fs t).1 = [] := by
  unfold ensureDir
  cases fs.target_kind with
  | absent => cases hb : fs.mkdirOk <;> simp [hb, cloneEvents]
  | directory => rfl
  | file => rfl

/-- Directory bootstrap performs no listing requests. -/
theorem ensureDir_no_requests (fs : FsEnv) (t : String) :
    requestPages (ensureDir fs t).1 = [] := by
  unfold ensureDir
  cases fs.target_kind with
  | absent => cases hb : fs.mkdirOk <;> simp [hb, requestPages]
  | directory => rfl
  | file => rfl

theorem cloneEvents_cons_log (m : String) (l : List Ev) :
    cloneEvents (Ev.log m :: l) = cloneEvents l := rfl

theorem cloneEvents_cons_request (pl pg : Nat) (l : List Ev) :
    cloneEvents (Ev.request pl pg :: l) = cloneEvents l := rfl

theorem cloneEvents_cons_mkdir (t : String) (l : List Ev) :
    cloneEvents (Ev.mkdir t :: l) = cloneEvents l := rfl

theorem cloneEvents_nil : cloneEvents [] = [] := rfl

/-! ## Claim theorems -/

/-- C1 (counterexample): with a colocated `icon.svg` present and readable,
holding the contents `custom`, `get_icon` does not return those contents —
it returns the embedded fallback SVG.  This refutes the claim that
`getIcon` prefers the file when it is present and readable. -/
theorem C1_icon_counterexample :
    get_icon (some "custom") ≠ "custom" ∧
      get_icon (some "custom") = bitbucketIconSvg := by
  exact ⟨by decide, rfl⟩

/-- C1 (amended): `get_icon` always returns the embedded SVG string,
whatever the state of any colocated `icon.svg`; it performs no file read
and cannot raise. -/
theorem C1_get_icon_always_fallback :
    ∀ iconFile : Option String, get_icon iconFile = bitbucketIconSvg :=
  fun _ => rfl

/-- C6: when the target path exists but is not a directory, `fetch` raises
`NotADirectoryError` having emitted only the two log lines: no listing
request is issued and nothing is cloned. -/
theorem C6_not_a_directory (p : SyncParams) (fs : FsEnv)
    (api : Nat → HttpResponse) (cloneEnv : String → String → CloneOutcome)
    (fuel : Nat) (hfs : fs.target_kind = PathKind.file) :
    fetch p fs api cloneEnv fuel =
      some ([startLogEv p, Ev.log ("Path " ++ p.target_directory ++ " is not a directory.")],
        Except.error PyError.notADirectoryError) ∧
    requestPages [startLogEv p, Ev.log ("Path " ++ p.target_directory ++ " is not a directory.")] = [] ∧
    countClones [startLogEv p, Ev.log ("Path " ++ p.target_directory ++ " is not a directory.")] = 0 := by
  have hdir : ensureDir fs p.target_directory =
      ([Ev.log ("Path " ++ p.target_directory ++ " is not a directory.")],
        some PyError.notADirectoryError) := by
    unfold ensureDir; rw [hfs]
  exact ⟨by simp [fetch, hdir], rfl, rfl⟩

/-- C6 witness. -/
theorem C6_not_a_directory_witness :
    fsFile.target_kind = PathKind.file ∧
    fetch pW fsFile apiC2 cloneAllOk 0 =
      some ([startLogEv pW, Ev.log ("Path " ++ pW.target_directory ++ " is not a directory.")],
        Except.error PyError.notADirectoryError) :=
  ⟨rfl, (C6_not_a_directory pW fsFile apiC2 cloneAllOk 0 rfl).1⟩

/-- C7: when the target path is absent, `fetch` creates it as its very first
action after the opening log line — in every completed run the trace starts
with the `mkdir` before anything else, in particular before any listing
request — and when `os.makedirs` fails the `OSError` propagates to the
caller with no network call made. -/
theorem C7_creates_directory_first (p : SyncParams) (fs : FsEnv)
    (api : Nat → HttpResponse) (cloneEnv : String → String → CloneOutcome)
    (fuel : Nat) (habs : fs.target_kind = PathKind.absent) :
    (fs.mkdirOk = true →
      ∀ tr res, fetch p fs api cloneEnv fuel = some (tr, res) →
        ∃ rest, tr = startLogEv p :: Ev.mkdir p.target_directory ::
          Ev.log ("Created directory: " ++ p.target_directory) :: rest) ∧
    (fs.mkdirOk = false →
      fetch p fs api cloneEnv fuel =
        some ([startLogEv p, Ev.log ("Failed to create directory " ++ p.target_directory ++ ".")],
          Except.error PyError.osError)) := by
  constructor
  · intro hmk tr res hfetch
    have hdir : ensureDir fs p.target_directory =
        ([Ev.mkdir p.target_directory, Ev.log ("Created directory: " ++ p.target_directory)], none) := by
      unfold ensureDir; rw [habs, hmk]; rfl
    simp only [fetch, hdir] at hfetch
    rcases hget : get_repos api p.username fuel with _ | ⟨lsEvs, res'⟩
    · rw [hget] at hfetch; simp at hfetch
    · rw [hget] at hfetch
      cases res' with
      | error e =>
        simp only [] at hfetch
        rw [Option.some.injEq, Prod.mk.injEq] at hfetch
        refine ⟨lsEvs, ?_⟩
        rw [← hfetch.1]
        simp
      | ok repos =>
        simp only [] at hfetch
        by_cases hemp : repos.isEmpty
        · rw [if_pos hemp] at hfetch
          rw [Option.some.injEq, Prod.mk.injEq] at hfetch
          refine ⟨lsEvs ++ [Ev.log ("No repositories found for user " ++ p.username ++ ".")], ?_⟩
          rw [← hfetch.1]
          simp
        · rw [if_neg hemp] at hfetch
          rcases hpr : (processRepos cloneEnv p.target_directory repos).2 with _ | e
          · rw [hpr] at hfetch
            simp only [] at hfetch
            rw [Option.some.injEq, Prod.mk.injEq] at hfetch
            refine ⟨lsEvs ++ foundLogEv repos.length ::
              (processRepos cloneEnv p.target_directory repos).1 ++ [doneLogEv], ?_⟩
            rw [← hfetch.1]
            simp
          · rw [hpr] at hfetch
            simp only [] at hfetch
            rw [Option.some.injEq, Prod.mk.injEq] at hfetch
            refine ⟨lsEvs ++ foundLogEv repos.length ::
              (processRepos cloneEnv p.target_directory repos).1, ?_⟩
            rw [← hfetch.1]
            simp
  · intro hmk
    have hdir : ensureDir fs p.target_directory =
        ([Ev.log ("Failed to create directory " ++ p.target_directory ++ ".")],
          some PyError.osError) := by
      unfold ensureDir; rw [habs, hmk]; rfl
    simp [fetch, hdir]

/-- C7 witness: the creation-failure half at a concrete filesystem. -/
theorem C7_creates_directory_first_witness :
    fsAbsentBad.target_kind = PathKind.absent ∧
    fetch pW fsAbsentBad apiC2 cloneAllOk 2 =
      some ([startLogEv pW, Ev.log ("Failed to create directory " ++ pW.target_directory ++ ".")],
        Except.error PyError.osError) :=
  ⟨rfl, (C7_creates_directory_first pW fsAbsentBad apiC2 cloneAllOk 2 rfl).2 rfl⟩

/-- C9: running `fetch` leaves the adapter — hence its `SyncParameters` —
unchanged, and re-running it from the resulting state behaves identically:
the only mutable state (page counter, accumulated list) is local to one
invocation. -/
theorem C9_params_immutable (a : Adapter) (fs : FsEnv)
    (api : Nat → HttpResponse) (cloneEnv : String → String → CloneOutcome)
    (fuel : Nat) :
    (a.fetchRun fs api cloneEnv fuel).1 = a ∧
    (a.fetchRun fs api cloneEnv fuel).1.fetchRun fs api cloneEnv fuel =
      a.fetchRun fs api cloneEnv fuel := by
  exact ⟨rfl, rfl⟩

/-- C3: on pages of 100, 100 and 0 records, `get_repos` issues exactly the
three requests `pagelen 100, page 1`, `pagelen 100, page 2`, `pagelen 100,
page 3` and returns the 200 records as page 1 followed by page 2, each in
API order. -/
theorem C3_pagination_three_pages (api : Nat → HttpResponse) (u : String)
    (fuel : Nat) (v1 v2 : List Repo)
    (h1s : (api 1).status = 200) (h1v : (api 1).values = some v1)
    (hl1 : v1.length = 100)
    (h2s : (api 2).status = 200) (h2v : (api 2).values = some v2)
    (hl2 : v2.length = 100)
    (h3s : (api 3).status = 200) (h3v : (api 3).values = some [])
    (hf : 3 ≤ fuel) :
    ∃ tr, get_repos api u fuel = some (tr, Except.ok (v1 ++ v2)) ∧
      requestPages tr = [(100, 1), (100, 2), (100, 3)] ∧
      (v1 ++ v2).length = 200 := by
  obtain ⟨k, rfl⟩ : ∃ k, fuel = k + 3 := ⟨fuel - 3, by omega⟩
  have hne1 : v1 ≠ [] := by intro h; rw [h] at hl1; simp at hl1
  have hne2 : v2 ≠ [] := by intro h; rw [h] at hl2; simp at hl2
  unfold get_repos
  rw [show k + 3 = (k + 2) + 1 from rfl,
    get_reposF_step_cons api u (k + 2) 1 [] v1 h1s h1v hne1,
    show k + 2 = (k + 1) + 1 from rfl,
    get_reposF_step_cons api u (k + 1) 2 ([] ++ v1) v2 h2s h2v hne2,
    get_reposF_step_empty api u k 3 (([] ++ v1) ++ v2) h3s h3v]
  refine ⟨pageEvs u 1 ++ (pageEvs u 2 ++ (pageEvs u 3 ++ [noMoreLogEv])), ?_, ?_, ?_⟩
  · simp
  · simp [requestPages, pageEvs, pageLogEv, noMoreLogEv]
  · rw [List.length_append, hl1, hl2]

/-- C3 witness. -/
theorem C3_pagination_three_pages_witness :
    (apiC3 1).values = some (List.replicate 100 (mkRepo "r" "urlR")) ∧
    (apiC3 3).values = some [] ∧
    (∃ tr, get_repos apiC3 "alice" 3 =
        some (tr, Except.ok (List.replicate 100 (mkRepo "r" "urlR") ++
          List.replicate 100 (mkRepo "r" "urlR"))) ∧
      requestPages tr = [(100, 1), (100, 2), (100, 3)] ∧
      (List.replicate 100 (mkRepo "r" "urlR") ++
        List.replicate 100 (mkRepo "r" "urlR")).length = 200) :=
  ⟨rfl, rfl,
    C3_pagination_three_pages apiC3 "alice" 3 _ _ rfl rfl (by simp) rfl rfl
      (by simp) rfl rfl (by decide)⟩

/-- C4: a non-200 listing response raises exactly the exception the status
determines — `ValueError` for 404, `PermissionError` for 403, a
status-carrying `ConnectionError` otherwise — the exception propagates out
of `fetch`, and such a run makes zero clone attempts. -/
theorem C4_listing_error_propagation :
    (∀ (api : Nat → HttpResponse) (u : String) (fuel page : Nat) (acc : List Repo),
      (api page).status ≠ 200 →
      ∃ tr, get_reposF api u (fuel + 1) page acc =
        some (tr, Except.error (statusError (api page).status))) ∧
    (∀ (p : SyncParams) (fs : FsEnv) (api : Nat → HttpResponse)
      (cloneEnv : String → String → CloneOutcome) (fuel : Nat)
      (lsEvs : List Ev) (e : PyError),
      (ensureDir fs p.target_directory).2 = none →
      get_repos api p.username fuel = some (lsEvs, Except.error e) →
      ∃ tr, fetch p fs api cloneEnv fuel = some (tr, Except.error e) ∧
        countClones tr = 0) ∧
    statusError 404 = PyError.valueError ∧
    statusError 403 = PyError.permissionError ∧
    (∀ s, s ≠ 404 → s ≠ 403 → statusError s = PyError.connectionError s) := by
  refine ⟨?_, ?_, rfl, rfl, ?_⟩
  · intro api u fuel page acc hs
    obtain ⟨msg, h⟩ := get_reposF_step_err api u fuel page acc hs
    exact ⟨_, h⟩
  · intro p fs api cloneEnv fuel lsEvs e hdir hls
    have hd1 : ensureDir fs p.target_directory =
        ((ensureDir fs p.target_directory).1, none) := by
      rw [← hdir]
    refine ⟨startLogEv p :: (ensureDir fs p.target_directory).1 ++ lsEvs, ?_, ?_⟩
    · simp only [fetch, hdir, hls]
    · have h1 : cloneEvents (ensureDir fs p.target_directory).1 = [] :=
        ensureDir_no_clones fs p.target_directory
      have h2 : cloneEvents lsEvs = [] :=
        get_reposF_no_clones api p.username fuel 1 [] lsEvs (Except.error e) hls
      unfold countClones
      rw [show startLogEv p :: (ensureDir fs p.target_directory).1 ++ lsEvs =
        Ev.log ("Starting fetch process for Bitbucket user " ++ p.username ++
          " into directory " ++ p.target_directory ++ ".") ::
          ((ensureDir fs p.target_directory).1 ++ lsEvs) from by simp [startLogEv],
        cloneEvents_cons_log, cloneEvents_append, h1, h2]
      rfl
  · intro s h4 h3
    simp [statusError, h4, h3]

/-- C4 witness: an all-500 API. -/
theorem C4_listing_error_propagation_witness :
    (apiC4 1).status ≠ 200 ∧
    (ensureDir fsDir pW.target_directory).2 = none ∧
    (∃ tr, get_reposF apiC4 "alice" (0 + 1) 1 [] =
      some (tr, Except.error (statusError (apiC4 1).status))) ∧
    (∃ tr, fetch pW fsDir apiC4 cloneAllOk 1 =
        some (tr, Except.error (PyError.connectionError 500)) ∧
      countClones tr = 0) :=
  ⟨by decide, rfl,
    C4_listing_error_propagation.1 apiC4 "alice" 0 1 [] (by decide),
    C4_listing_error_propagation.2.1 pW fsDir apiC4 cloneAllOk 1
      (pageEvs "alice" 1 ++
        [Ev.log ("Failed to fetch repositories: HTTP " ++ toString 500)])
      (PyError.connectionError 500) rfl rfl⟩

/-- C8 (counterexample): the all-404 API never returns an empty page, yet
for every positive fuel the pagination loop has already terminated (raising
`ValueError` on the first request).  This refutes the claim that a response
sequence that never returns an empty page makes the loop run forever. -/
theorem C8_nonempty_pages_counterexample :
    (∀ pg, ((apiC8 pg).values.getD []) ≠ []) ∧
    (∀ k, get_reposF apiC8 "alice" (k + 1) 1 [] =
      some (pageEvs "alice" 1 ++ [Ev.log ("User " ++ "alice" ++ " not found on Bitbucket.")],
        Except.error PyError.valueError)) := by
  constructor
  · intro pg; simp [apiC8]
  · intro k
    simp [get_reposF, apiC8]

/-- C8 (amended): restricted to all-200 response sequences, the pagination
loop terminates (with the accumulated list) exactly when some page returns
an empty result set: if every page from 1 on is nonempty the loop exhausts
any fuel, and if the page at offset `N` is empty then fuel `N + 1` already
suffices. -/
theorem C8_termination_amended (api : Nat → HttpResponse) (u : String)
    (hall : ∀ pg, (api pg).status = 200) :
    ((∀ pg, 1 ≤ pg → ((api pg).values.getD []) ≠ []) →
      ∀ fuel, get_reposF api u fuel 1 [] = none) ∧
    (∀ N, ((api (1 + N)).values.getD []) = [] →
      ∃ tr acc, get_reposF api u (N + 1) 1 [] = some (tr, Except.ok acc)) := by
  constructor
  · intro hne fuel
    exact get_reposF_none_of_never_empty api u hall hne fuel 1 [] (by omega)
  · intro N hN
    obtain ⟨tr, acc, h⟩ := get_reposF_terminates_of_empty api u hall N 1 [] hN
    exact ⟨tr, acc, h⟩

/-- C8 witness: an all-200 API whose first page is empty. -/
theorem C8_termination_amended_witness :
    (∀ pg, (apiC8W pg).status = 200) ∧
    (∃ tr acc, get_reposF apiC8W "alice" (0 + 1) 1 [] =
      some (tr, Except.ok acc)) :=
  ⟨fun _ => rfl,
    (C8_termination_amended apiC8W "alice" (fun _ => rfl)).2 0 (by decide)⟩

/-- The clone attempts of a completed `fetch` trace are those of its repo
loop: the surrounding log/request events contribute none. -/
theorem cloneEvents_fetch_trace (p : SyncParams) (lsEvs B : List Ev) (n : Nat)
    (hls : cloneEvents lsEvs = []) :
    cloneEvents (startLogEv p :: lsEvs ++ foundLogEv n :: B ++ [doneLogEv]) =
      cloneEvents B := by
  simp [startLogEv, foundLogEv, doneLogEv, cloneEvents_append,
    cloneEvents_cons_log, cloneEvents_nil, hls]

/-- Membership in the repo-loop segment lifts to the full trace. -/
theorem mem_fetch_trace (p : SyncParams) (lsEvs B : List Ev) (n : Nat) (e : Ev)
    (he : e ∈ B) :
    e ∈ startLogEv p :: lsEvs ++ foundLogEv n :: B ++ [doneLogEv] := by
  simp [he]

/-- The listing trace of a nonempty-then-empty two-page run has no clone
events. -/
theorem cloneEvents_two_page_listing (u : String) :
    cloneEvents (pageEvs u 1 ++ (pageEvs u 2 ++ [noMoreLogEv])) = [] := by
  simp [pageEvs, pageLogEv, noMoreLogEv, cloneEvents_append,
    cloneEvents_cons_log, cloneEvents_cons_request, cloneEvents_nil]

/-- C2: with N records of which exactly the distinguished one lacks a clone
URL, `fetch` completes, makes exactly N − 1 clone attempts — those of the
other records, in API order — and logs the skip warning for the
distinguished record. -/
theorem C2_skip_missing_clone_url (p : SyncParams) (fs : FsEnv)
    (api : Nat → HttpResponse) (cloneEnv : String → String → CloneOutcome)
    (fuel : Nat) (pre post : List Repo) (rk : Repo)
    (hfs : fs.target_kind = PathKind.directory)
    (h1s : (api 1).status = 200)
    (h1v : (api 1).values = some (pre ++ rk :: post))
    (h2s : (api 2).status = 200) (h2v : (api 2).values = some [])
    (hf : 2 ≤ fuel)
    (hpre : ∀ r ∈ pre, (repoUrl r).isSome)
    (hpost : ∀ r ∈ post, (repoUrl r).isSome)
    (hk : repoUrl rk = none) (hkok : extractOk rk = true) :
    ∃ tr, fetch p fs api cloneEnv fuel = some (tr, Except.ok ()) ∧
      cloneEvents tr = pre.filterMap repoCloneSig ++ post.filterMap repoCloneSig ∧
      countClones tr + 1 = (pre ++ rk :: post).length ∧
      skipLogEv (displayName rk) ∈ tr := by
  obtain ⟨k, rfl⟩ : ∃ k, fuel = k + 2 := ⟨fuel - 2, by omega⟩
  have hne : (pre ++ rk :: post) ≠ [] := by simp
  have hallok : ∀ r ∈ pre ++ rk :: post, extractOk r = true := by
    intro r hr
    rcases List.mem_append.1 hr with h | h
    · exact extractOk_of_repoUrl r (hpre r h)
    · rcases List.mem_cons.1 h with h | h
      · subst h; exact hkok
      · exact extractOk_of_repoUrl r (hpost r h)
  have hpr := processRepos_ok cloneEnv p.target_directory (pre ++ rk :: post) hallok
  have hsig : repoCloneSig rk = none := by simp [repoCloneSig, hk]
  have hfetch := fetch_one_page p fs api cloneEnv k (pre ++ rk :: post)
    hfs h1s h1v hne h2s h2v
  rw [hpr.1] at hfetch
  simp only [] at hfetch
  have hmem : skipLogEv (displayName rk) ∈
      (processRepos cloneEnv p.target_directory (pre ++ rk :: post)).1 := by
    have hpre_ok := processRepos_ok cloneEnv p.target_directory pre
      (fun r hr => extractOk_of_repoUrl r (hpre r hr))
    rw [processRepos_append cloneEnv p.target_directory pre (rk :: post) hpre_ok.1]
    have hhead := processRepo_skip cloneEnv p.target_directory rk hk hkok
    have hcons : (processRepos cloneEnv p.target_directory (rk :: post)).1 =
        skipLogEv (displayName rk) :: (processRepos cloneEnv p.target_directory post).1 := by
      simp [processRepos, hhead]
    simp [hcons]
  refine ⟨_, hfetch, ?_, ?_, ?_⟩
  · rw [cloneEvents_fetch_trace p _ _ _ (cloneEvents_two_page_listing p.username), hpr.2]
    simp [List.filterMap_append, List.filterMap_cons, hsig]
  · have hlp := length_filterMap_repoCloneSig pre hpre
    have hlq := length_filterMap_repoCloneSig post hpost
    simp only [countClones]
    rw [cloneEvents_fetch_trace p _ _ _ (cloneEvents_two_page_listing p.username), hpr.2]
    simp [List.filterMap_append, List.filterMap_cons, hsig, hlp, hlq]
    omega
  · exact mem_fetch_trace p _ _ _ _ hmem

/-- C2 witness: three records, the middle one without a clone URL. -/
theorem C2_skip_missing_clone_url_witness :
    fsDir.target_kind = PathKind.directory ∧
    (apiC2 1).values = some ([mkRepo "a" "urlA"] ++ mkRepoNoLinks "b" :: [mkRepo "c" "urlC"]) ∧
    repoUrl (mkRepoNoLinks "b") = none ∧
    (∃ tr, fetch pW fsDir apiC2 cloneAllOk 2 = some (tr, Except.ok ()) ∧
      cloneEvents tr = [mkRepo "a" "urlA"].filterMap repoCloneSig ++
        [mkRepo "c" "urlC"].filterMap repoCloneSig ∧
      countClones tr + 1 = ([mkRepo "a" "urlA"] ++ mkRepoNoLinks "b" :: [mkRepo "c" "urlC"]).length ∧
      skipLogEv (displayName (mkRepoNoLinks "b")) ∈ tr) :=
  ⟨rfl, by decide, by decide,
    C2_skip_missing_clone_url pW fsDir apiC2 cloneAllOk 2
      [mkRepo "a" "urlA"] [mkRepo "c" "urlC"] (mkRepoNoLinks "b")
      rfl (by decide) (by decide) (by decide) (by decide) (by decide)
      (by decide) (by decide) (by decide) (by decide)⟩

/-- C5: given three repositories with clone URLs where the clone of the
second one fails with a non-zero exit, `fetch` still attempts all three (in
order) and returns successfully; moreover the repo loop's error outcome is
independent of the clone environment, so per-repository clone failures are
never propagated. -/
theorem C5_clone_failure_isolated :
    (∀ (p : SyncParams) (fs : FsEnv) (api : Nat → HttpResponse)
      (cloneEnv : String → String → CloneOutcome) (fuel : Nat)
      (r1 r2 r3 : Repo) (u1 u2 u3 serr : String),
      fs.target_kind = PathKind.directory →
      (api 1).status = 200 → (api 1).values = some [r1, r2, r3] →
      (api 2).status = 200 → (api 2).values = some [] →
      2 ≤ fuel →
      repoUrl r1 = some u1 → repoUrl r2 = some u2 → repoUrl r3 = some u3 →
      cloneEnv u2 (displayName r2) = CloneOutcome.processFailure serr →
      ∃ tr, fetch p fs api cloneEnv fuel = some (tr, Except.ok ()) ∧
        cloneEvents tr = [(u1, displayName r1), (u2, displayName r2), (u3, displayName r3)]) ∧
    (∀ (c₁ c₂ : String → String → CloneOutcome) (t : String) (rs : List Repo),
      (processRepos c₁ t rs).2 = (processRepos c₂ t rs).2) := by
  constructor
  · intro p fs api cloneEnv fuel r1 r2 r3 u1 u2 u3 serr hfs h1s h1v h2s h2v hf
      hu1 hu2 hu3 hfail
    obtain ⟨k, rfl⟩ : ∃ k, fuel = k + 2 := ⟨fuel - 2, by omega⟩
    have hallok : ∀ r ∈ [r1, r2, r3], extractOk r = true := by
      intro r hr
      simp only [List.mem_cons, List.not_mem_nil, or_false] at hr
      rcases hr with rfl | rfl | rfl
      · exact extractOk_of_repoUrl _ (by rw [hu1]; rfl)
      · exact extractOk_of_repoUrl _ (by rw [hu2]; rfl)
      · exact extractOk_of_repoUrl _ (by rw [hu3]; rfl)
    have hpr := processRepos_ok cloneEnv p.target_directory [r1, r2, r3] hallok
    have hfetch := fetch_one_page p fs api cloneEnv k [r1, r2, r3]
      hfs h1s h1v (by simp) h2s h2v
    rw [hpr.1] at hfetch
    simp only [] at hfetch
    refine ⟨_, hfetch, ?_⟩
    rw [cloneEvents_fetch_trace p _ _ _ (cloneEvents_two_page_listing p.username), hpr.2]
    have hsig1 : repoCloneSig r1 = some (u1, displayName r1) := by
      simp [repoCloneSig, hu1]
    have hsig2 : repoCloneSig r2 = some (u2, displayName r2) := by
      simp [repoCloneSig, hu2]
    have hsig3 : repoCloneSig r3 = some (u3, displayName r3) := by
      simp [repoCloneSig, hu3]
    simp [List.filterMap_cons, hsig1, hsig2, hsig3]
  · exact fun c₁ c₂ t rs => processRepos_snd_indep c₁ c₂ t rs

/-- C5 witness: the clone of `uB` (the second repository) exits non-zero. -/
theorem C5_clone_failure_isolated_witness :
    cloneFailB "uB" (displayName (mkRepo "b" "uB")) =
      CloneOutcome.processFailure "fatal: repository not found" ∧
    (∃ tr, fetch pW fsDir apiC5 cloneFailB 2 = some (tr, Except.ok ()) ∧
      cloneEvents tr = [("uA", displayName (mkRepo "a" "uA")),
        ("uB", displayName (mkRepo "b" "uB")), ("uC", displayName (mkRepo "c" "uC"))]) ∧
    (processRepos cloneFailB pW.target_directory [mkRepo "a" "uA"]).2 =
      (processRepos cloneAllOk pW.target_directory [mkRepo "a" "uA"]).2 :=
  ⟨by decide,
    C5_clone_failure_isolated.1 pW fsDir apiC5 cloneFailB 2
      (mkRepo "a" "uA") (mkRepo "b" "uB") (mkRepo "c" "uC") "uA" "uB" "uC"
      "fatal: repository not found"
      rfl (by decide) (by decide) (by decide) (by decide) (by decide)
      (by decide) (by decide) (by decide) (by decide),
    C5_clone_failure_isolated.2 cloneFailB cloneAllOk pW.target_directory
      [mkRepo "a" "uA"]⟩

/-- C10: clone-URL extraction is total for records missing the `links` or
`clone` keys — they are skipped with the warning log and no exception — but
a record whose `links.clone` is an explicitly empty list makes `fetch` raise
an uncaught `IndexError` instead of skipping it. -/
theorem C10_clone_url_extraction :
    (∀ (cloneEnv : String → String → CloneOutcome) (t : String) (r : Repo),
      (r.links = none ∨ r.links = some { clone := none }) →
      processRepo cloneEnv t r = ([skipLogEv (displayName r)], none)) ∧
    (∀ (p : SyncParams) (fs : FsEnv) (api : Nat → HttpResponse)
      (cloneEnv : String → String → CloneOutcome) (fuel : Nat)
      (pre post : List Repo) (r : Repo),
      fs.target_kind = PathKind.directory →
      (api 1).status = 200 → (api 1).values = some (pre ++ r :: post) →
      (api 2).status = 200 → (api 2).values = some [] →
      2 ≤ fuel →
      (∀ x ∈ pre, extractOk x = true) →
      r.links = some { clone := some [] } →
      ∃ tr, fetch p fs api cloneEnv fuel =
        some (tr, Except.error PyError.indexError)) := by
  constructor
  · intro cloneEnv t r h
    have hg : getCloneUrl r = Except.ok none := by
      rcases h with h | h <;> simp [getCloneUrl, h]
    simp [processRepo, hg]
  · intro p fs api cloneEnv fuel pre post r hfs h1s h1v h2s h2v hf hpre hlinks
    obtain ⟨k, rfl⟩ : ∃ k, fuel = k + 2 := ⟨fuel - 2, by omega⟩
    have hgr : getCloneUrl r = Except.error PyError.indexError := by
      simp [getCloneUrl, hlinks]
    have hprr : processRepo cloneEnv p.target_directory r =
        ([], some PyError.indexError) := by
      simp [processRepo, hgr]
    have hpre_ok := processRepos_ok cloneEnv p.target_directory pre hpre
    have hsnd : (processRepos cloneEnv p.target_directory (pre ++ r :: post)).2 =
        some PyError.indexError := by
      rw [processRepos_append cloneEnv p.target_directory pre (r :: post) hpre_ok.1]
      simp [processRepos, hprr]
    have hfetch := fetch_one_page p fs api cloneEnv k (pre ++ r :: post)
      hfs h1s h1v (by simp) h2s h2v
    rw [hsnd] at hfetch
    simp only [] at hfetch
    exact ⟨_, hfetch⟩

/-- C10 witness: a record with no `links` key is skipped; a record with an
empty clone list crashes the whole `fetch`. -/
theorem C10_clone_url_extraction_witness :
    (mkRepoNoLinks "b").links = none ∧
    processRepo cloneAllOk pW.target_directory (mkRepoNoLinks "b") =
      ([skipLogEv (displayName (mkRepoNoLinks "b"))], none) ∧
    (mkRepoEmptyClone "bad").links = some { clone := some [] } ∧
    (∃ tr, fetch pW fsDir apiC10 cloneAllOk 2 =
      some (tr, Except.error PyError.indexError)) :=
  ⟨rfl,
    C10_clone_url_extraction.1 cloneAllOk pW.target_directory (mkRepoNoLinks "b")
      (Or.inl rfl),
    rfl,
    C10_clone_url_extraction.2 pW fsDir apiC10 cloneAllOk 2
      [mkRepo "a" "urlA"] [] (mkRepoEmptyClone "bad")
      rfl (by decide) (by decide) (by decide) (by decide) (by decide)
      (by decide) rfl⟩

end SubjectiveBitBucket
